import Mathlib

/-!
Verification of the grid-trading decision engine and orchestration loop of a
cryptocurrency trading bot.

Prices and percentages are embedded as exact rationals (the source uses Python
floats; all claims are about the arithmetic relations, which the rational
embedding renders exactly).  Python values that may be `None` become `Option`.
A Python `ZeroDivisionError` escaping an operation is rendered as the `none`
result of an `Option`-valued embedding of that operation.

The file `src/strategy.py` of the repository contains a reduced
`GridTradingStrategy` without the risk sub-logic (stop-loss, trailing stop,
dynamic position sizing, consecutive win/loss streaks), while `src/bot.py`
calls `check_stop_loss` and `adjust_position_size` on the strategy and the
test files (`test_stop_loss.py`, `test_trailing_stop.py`,
`test_position_sizing.py`) construct strategies with the risk fields and
exercise them.  The full strategy source is therefore missing from the
snapshot; its risk parts are modelled from the specification below and are
marked `Modelled from the spec:` in their doc comments.  Everything else is a
direct embedding of the Python in `src/strategy.py` and `src/bot.py`.
-/

namespace CryptoBot

/-- Trading signal returned by `GridTradingStrategy.analyze`
(the strings BUY / SELL / HOLD in `src/strategy.py`). -/
inductive Signal where
  | BUY
  | SELL
  | HOLD
deriving DecidableEq, Repr

/-- State of `GridTradingStrategy` (`src/strategy.py`, `__init__` lines 31-61).
The first eight fields are exactly the mutable attributes set by the
constructor in `src/strategy.py`.

Modelled from the spec: the remaining fields (`stop_loss_percentage`,
`use_trailing_stop`, `trailing_stop_percentage`, `highest_price_since_buy`,
`consecutive_wins`, `consecutive_losses`, `base_trade_amount`,
`min_position_size`, `max_position_size`) belong to the full
`GridTradingStrategy` that is missing from `src/`; they appear in the spec's
StrategyState/RiskConfig data model and are exercised by `src/bot.py` and the
test files. -/
structure GridTradingStrategy where
  buy_threshold : ℚ
  sell_threshold : ℚ
  trade_amount : ℚ
  last_buy_price : Option ℚ
  last_sell_price : Option ℚ
  total_trades : ℕ
  wins : ℕ
  losses : ℕ
  stop_loss_percentage : ℚ
  use_trailing_stop : Bool
  trailing_stop_percentage : ℚ
  highest_price_since_buy : Option ℚ
  consecutive_wins : ℕ
  consecutive_losses : ℕ
  base_trade_amount : ℚ
  min_position_size : ℚ
  max_position_size : ℚ
deriving DecidableEq, Repr

/-- `GridTradingStrategy.analyze` (`src/strategy.py` lines 115-183), the full
version including the trailing-stop logic of the base-held branch.

The quote-held (`USDT`) branch, the unknown-position fallback, the missing
reference-price guards (`last_sell_price is None` / `last_buy_price is None`)
and the threshold comparisons are exactly the Python of `src/strategy.py`; a
reference price equal to `0` passes those guards and the subsequent division
raises `ZeroDivisionError`, rendered here as `none`.

Modelled from the spec: the trailing-stop part of the base-held branch (absent
from `src/strategy.py`; exercised by `test_trailing_stop.py`): first update
`highest_price_since_buy` to the running maximum, then, when
`use_trailing_stop` is set, return `SELL` when the drawdown from the peak
reaches `trailing_stop_percentage`, taking precedence over the plain
rise-threshold check.  The updated strategy state is returned alongside the
signal (the Python mutates `self`). -/
def analyze (current_price : ℚ) (position : String) (s : GridTradingStrategy) :
    Option (Signal × GridTradingStrategy) :=
  if position = "USDT" then
    match s.last_sell_price with
    | none => some (.BUY, s)
    | some last_sell =>
      if last_sell = 0 then none
      else
        let price_drop := (last_sell - current_price) / last_sell * 100
        if s.buy_threshold ≤ price_drop then some (.BUY, s) else some (.HOLD, s)
  else if position = "BTC" then
    match s.last_buy_price with
    | none => some (.HOLD, s)
    | some last_buy =>
      let peak := max (s.highest_price_since_buy.getD current_price) current_price
      let s' := { s with highest_price_since_buy := some peak }
      let rise_check : Option (Signal × GridTradingStrategy) :=
        if last_buy = 0 then none
        else
          let price_rise := (current_price - last_buy) / last_buy * 100
          if s.sell_threshold ≤ price_rise then some (.SELL, s') else some (.HOLD, s')
      if s.use_trailing_stop then
        if peak = 0 then none
        else
          let drawdown := (peak - current_price) / peak * 100
          if s.trailing_stop_percentage ≤ drawdown then some (.SELL, s')
          else rise_check
      else rise_check
  else
    some (.HOLD, s)

/-- `GridTradingStrategy.record_buy` (`src/strategy.py` lines 185-195): store the
buy price and count the trade.

Modelled from the spec: additionally reset `highest_price_since_buy` to the
buy price (the field is missing from `src/strategy.py`; the spec's `recordBuy`
resets the peak on every buy). -/
def record_buy (price : ℚ) (s : GridTradingStrategy) : GridTradingStrategy :=
  { s with
    last_buy_price := some price
    highest_price_since_buy := some price
    total_trades := s.total_trades + 1 }

/-- `GridTradingStrategy.record_sell` (`src/strategy.py` lines 197-225): store
the sell price, count the trade, and when `last_buy_price` is not `None`
attribute a win (`profit_loss_pct > 0`) or a loss (otherwise).  A
`last_buy_price` of `0` passes the `is not None` guard and the P&L division
raises `ZeroDivisionError` (`none` here).

Modelled from the spec: the streak counters (`consecutive_wins` incremented
and `consecutive_losses` cleared on a win, symmetrically on a loss) and the
clearing of `highest_price_since_buy` on every sell — these fields are missing
from `src/strategy.py` and are taken from the spec's `recordSell` and the
peak-reset invariant. -/
def record_sell (price : ℚ) (s : GridTradingStrategy) : Option GridTradingStrategy :=
  let s0 := { s with
    last_sell_price := some price
    highest_price_since_buy := none
    total_trades := s.total_trades + 1 }
  match s.last_buy_price with
  | none => some s0
  | some last_buy =>
    if last_buy = 0 then none
    else
      let profit_loss_pct := (price - last_buy) / last_buy * 100
      if 0 < profit_loss_pct then
        some { s0 with
          wins := s0.wins + 1
          consecutive_wins := s0.consecutive_wins + 1
          consecutive_losses := 0 }
      else
        some { s0 with
          losses := s0.losses + 1
          consecutive_losses := s0.consecutive_losses + 1
          consecutive_wins := 0 }

/-- `GridTradingStrategy.get_stats` win rate (`src/strategy.py` lines 227-241):
`wins / total_trades * 100` when any trade was recorded, else `0`. -/
def win_rate (s : GridTradingStrategy) : ℚ :=
  if 0 < s.total_trades then (s.wins : ℚ) / (s.total_trades : ℚ) * 100 else 0

/-- Modelled from the spec: `GridTradingStrategy.check_stop_loss` is missing
from `src/strategy.py` (it is called at `src/bot.py` line 486 and by
`test_stop_loss.py`).  Per the spec, while base-held the loss from
`last_buy_price` in percent is compared against `stop_loss_percentage`; the
check is true iff the loss reaches the threshold.  The spec mandates division
guards wherever a reference price could be absent, so an absent or zero
`last_buy_price` yields `false`, as does any non-base-held position. -/
def check_stop_loss (price : ℚ) (position : String) (s : GridTradingStrategy) : Bool :=
  if position = "BTC" then
    match s.last_buy_price with
    | none => false
    | some last_buy =>
      if last_buy = 0 then false
      else decide (s.stop_loss_percentage ≤ (last_buy - price) / last_buy * 100)
  else false

/-- Modelled from the spec: `GridTradingStrategy.adjust_position_size` is
missing from `src/strategy.py` (it is called at `src/bot.py` line 291 after
every completed sell and by `test_position_sizing.py`).  Per the spec: with
three or more consecutive wins, increase `trade_amount` by one fixed step,
capped at `max_position_size` and at a fixed fraction of the available quote
balance; with three or more consecutive losses, decrease by one fixed step,
floored at `min_position_size`.  The spec does not fix the step or the
balance fraction, so both are parameters here.  A cap on an increase bounds
the result from above but never pushes the amount below its current value;
the win-rate argument is part of the call signature but the spec's adjustment
rule depends only on the streak counters. -/
def adjust_position_size (step frac : ℚ) (quote_balance _win_rate_pct : ℚ)
    (s : GridTradingStrategy) : GridTradingStrategy :=
  if 3 ≤ s.consecutive_wins then
    { s with trade_amount := max s.trade_amount (min (s.trade_amount + step) (min s.max_position_size (frac * quote_balance))) }
  else if 3 ≤ s.consecutive_losses then
    { s with trade_amount := max (s.trade_amount - step) s.min_position_size }
  else s

/-- Iterated `adjust_position_size` over a list of `(quote_balance, win_rate)`
observations, one call per completed sell (`src/bot.py` line 291 fires once
per successful SELL). -/
def adjust_calls (step frac : ℚ) (calls : List (ℚ × ℚ))
    (s : GridTradingStrategy) : GridTradingStrategy :=
  calls.foldl (fun t c => adjust_position_size step frac c.1 c.2 t) s

/-- Python `needle in haystack` support: does the haystack start with the
needle? -/
def starts_with : List Char → List Char → Bool
  | [], _ => true
  | _ :: _, [] => false
  | a :: as, b :: bs => a == b && starts_with as bs

/-- Python substring containment (`needle in haystack` on `str`). -/
def contains_sub (needle : List Char) : List Char → Bool
  | [] => needle.isEmpty
  | b :: bs => starts_with needle (b :: bs) || contains_sub needle bs

/-- The fixed positive keyword list of `TradingBot._parse_ai_confirmation`
(`src/bot.py` lines 400-404). -/
def positive_keywords : List (List Char) :=
  ["yes", "proceed", "go ahead", "good", "take", "execute",
   "approve", "favorable", "recommend", "looks good", "agree",
   "positive", "buy it", "sell it", "do it", "take it"].map String.toList

/-- The fixed negative keyword list of `TradingBot._parse_ai_confirmation`
(`src/bot.py` lines 407-411). -/
def negative_keywords : List (List Char) :=
  ["no", "wait", "avoid", "don\x27t", "do not", "hold off",
   "pause", "skip", "risky", "caution", "reconsider",
   "unfavorable", "against", "decline", "reject"].map String.toList

/-- Number of keywords of `kws` occurring as substrings of `text`
(`sum(1 for keyword in kws if keyword in text)` in `src/bot.py`
lines 414-415): each keyword counts at most once. -/
def keyword_count (text : List Char) (kws : List (List Char)) : ℕ :=
  (kws.filter fun k => contains_sub k text).length

/-- Python `str.lower()` on the response text (`src/bot.py` line 397); the
keywords are ASCII, for which `Char.toLower` matches Python. -/
def lower_chars (text : List Char) : List Char := text.map Char.toLower

/-- `TradingBot._parse_ai_confirmation` (`src/bot.py` lines 380-425).  Text is
a list of characters (`None` becomes `none`); `if not ai_response` is true for
both `None` and the empty string.  Approve iff strictly more positive than
negative keyword matches and at least one positive match. -/
def parse_ai_confirmation (ai_response : Option (List Char)) : Bool :=
  match ai_response with
  | none => false
  | some t =>
    if t.isEmpty then false
    else
      let response_lower := lower_chars t
      let positive_count := keyword_count response_lower positive_keywords
      let negative_count := keyword_count response_lower negative_keywords
      decide (negative_count < positive_count ∧ 0 < positive_count)

/-- The in-memory state of `TradingBot` that the trading logic touches:
the position string (`USDT` or `BTC`), the strategy object, and the
`require_ai_confirmation` flag (`src/bot.py` lines 37-45). -/
structure BotState where
  position : String
  strategy : GridTradingStrategy
  require_ai_confirmation : Bool
deriving DecidableEq, Repr

/-- A balance dictionary as consumed by the bot: `balance.get('USDT', 0.0)`
and `balance.get('BTC', 0.0)` (`src/bot.py`). -/
structure BalanceMap where
  usdt : ℚ
  btc : ℚ
deriving DecidableEq, Repr

/-- Result of `TradingBot.execute_trade`: the bot state after the call, the
boolean return value, and whether `save_state` was reached (persistence
happens only on the success paths, `src/bot.py` lines 252 and 294). -/
structure TradeResult where
  bot : BotState
  success : Bool
  persisted : Bool
deriving DecidableEq, Repr

/-- `TradingBot.execute_trade` (`src/bot.py` lines 219-304).  The exchange
order placement results are inputs (`buy_order` / `sell_order`, `none` for a
null order); `balance` is the `get_balance()` result fetched after a
successful sell (a `None` or empty dict is `none`).  On a successful BUY:
`record_buy`, flip position to BTC, persist.  On a successful SELL:
`record_sell`, flip position to USDT, then `adjust_position_size` when the
balance is truthy, persist.  A null order: log and return `False` with
nothing changed and nothing persisted.  Any other signal returns `False`.
The overall `none` result renders a `ZeroDivisionError` escaping
`record_sell`.  `step` and `frac` are the position-sizing parameters passed
through to `adjust_position_size`. -/
def execute_trade (signal : Signal) (price : ℚ)
    (buy_order sell_order : Option Unit) (balance : Option BalanceMap)
    (step frac : ℚ) (st : BotState) : Option TradeResult :=
  match signal with
  | .BUY =>
    match buy_order with
    | some _ =>
      some ⟨{ st with strategy := record_buy price st.strategy, position := "BTC" }, true, true⟩
    | none => some ⟨st, false, false⟩
  | .SELL =>
    match sell_order with
    | some _ =>
      match record_sell price st.strategy with
      | none => none
      | some s1 =>
        let s2 := match balance with
          | some bal => adjust_position_size step frac bal.usdt (win_rate s1) s1
          | none => s1
        some ⟨{ st with strategy := s2, position := "USDT" }, true, true⟩
    | none => some ⟨st, false, false⟩
  | .HOLD => some ⟨st, false, false⟩

/-- Outcome of one iteration of the main loop of `TradingBot.run`. -/
inductive TickOutcome where
  | skippedNoPrice
  | stopLossSell (result : Option TradeResult)
  | held (bot : BotState)
  | skippedNoAdvice (sig : Signal) (bot : BotState)
  | blockedByGate (sig : Signal) (bot : BotState)
  | executed (sig : Signal) (result : Option TradeResult)
  | crashed
deriving DecidableEq, Repr

/-- One iteration of the main loop of `TradingBot.run` (`src/bot.py` lines
463-534), restricted to the state-affecting trading logic: price fetch
failure skips the tick (line 469); `check_stop_loss` is evaluated before
`analyze` and, when true, an emergency SELL is executed directly, never
consulting the AI gate (lines 486-491); otherwise `analyze` produces the
signal (line 494; a `ZeroDivisionError` there aborts the loop — `crashed`);
`HOLD` does nothing; a non-HOLD signal with `require_ai_confirmation` set is
skipped when no advice text arrives (lines 510-514), executed when
`parse_ai_confirmation` approves (lines 517-522) and blocked otherwise;
without the flag it is executed directly (line 531).  The volatility alert
step (line 483) only logs and consults the advisor best-effort; it does not
touch the trading state and is not modelled. -/
def tick (price : Option ℚ) (advice : Option (List Char))
    (buy_order sell_order : Option Unit) (balance : Option BalanceMap)
    (step frac : ℚ) (st : BotState) : TickOutcome :=
  match price with
  | none => .skippedNoPrice
  | some p =>
    if check_stop_loss p st.position st.strategy then
      .stopLossSell (execute_trade .SELL p buy_order sell_order balance step frac st)
    else
      match analyze p st.position st.strategy with
      | none => .crashed
      | some (sig, s1) =>
        let st1 := { st with strategy := s1 }
        if sig = .HOLD then .held st1
        else if st.require_ai_confirmation then
          match advice with
          | none => .skippedNoAdvice sig st1
          | some text =>
            if parse_ai_confirmation (some text) then
              .executed sig (execute_trade sig p buy_order sell_order balance step frac st1)
            else .blockedByGate sig st1
        else .executed sig (execute_trade sig p buy_order sell_order balance step frac st1)

/-- The persisted state file content (`bot_state.json`): JSON object
`position / last_buy_price / last_sell_price` where the prices may be null
(`none`) and the keys are read with `state.get` (`src/bot.py` lines 149-155).
A missing `position` key defaults to `USDT` via `state.get('position',
'USDT')`; missing price keys behave like null. -/
structure PersistedState where
  position : String
  last_buy_price : Option ℚ
  last_sell_price : Option ℚ
deriving DecidableEq, Repr

/-- The coercion `state.get(key) or 0.0` of `TradingBot.load_state`
(`src/bot.py` lines 154-155): a stored null (and a stored `0`) becomes `0.0`,
any other number is kept. -/
def load_coerce (v : Option ℚ) : ℚ := v.getD 0

/-- `TradingBot.load_state` (`src/bot.py` lines 140-176) on a successfully
read and parsed state file, followed by the buy-price estimation branch:
restore the position, coerce both prices with `or 0.0`, and when the position
is BTC with a missing-or-zero buy price, replace it with the current market
price when that price is truthy (not `None` and nonzero) and persist.
Returns the restored position, the strategy price fields, and whether
`save_state` ran. -/
def load_state (file : PersistedState) (current_price : Option ℚ)
    (s : GridTradingStrategy) : String × GridTradingStrategy × Bool :=
  let position := file.position
  let s1 := { s with
    last_buy_price := some (load_coerce file.last_buy_price)
    last_sell_price := some (load_coerce file.last_sell_price) }
  if position = "BTC" ∧ load_coerce file.last_buy_price = 0 then
    match current_price with
    | some cp =>
      if cp = 0 then (position, s1, false)
      else (position, { s1 with last_buy_price := some cp }, true)
    | none => (position, s1, false)
  else (position, s1, false)

/-- The startup reconciliation of `TradingBot.__init__` (`src/bot.py` lines
66-95), run after `load_state`: when the live balance query succeeds, a BTC
balance above the dust threshold `0.0001` with persisted position `USDT`
overrides the position to `BTC`, and a BTC balance at or below the threshold
with persisted position `BTC` overrides it to `USDT`; then, when the
resulting position is `BTC` with a missing-or-zero `last_buy_price`, the buy
price is estimated from the current market price when truthy; finally the
corrected state is saved.  When the balance query fails (`None`), nothing is
checked and nothing is saved.  Returns the effective position, the strategy
price fields, and whether `save_state` ran. -/
def reconcile (position : String) (balance : Option BalanceMap)
    (current_price : Option ℚ) (s : GridTradingStrategy) :
    String × GridTradingStrategy × Bool :=
  match balance with
  | none => (position, s, false)
  | some bal =>
    let btc_balance := bal.btc
    let position1 :=
      if 0.0001 < btc_balance ∧ position = "USDT" then "BTC"
      else if btc_balance ≤ 0.0001 ∧ position = "BTC" then "USDT"
      else position
    let s1 :=
      if position1 = "BTC" ∧ (s.last_buy_price = none ∨ s.last_buy_price = some 0) then
        match current_price with
        | some cp => if cp = 0 then s else { s with last_buy_price := some cp }
        | none => s
      else s
    (position1, s1, true)

/-- A concrete strategy configuration used by the concrete instances below:
thresholds 1%, trade amount 0.001, stop-loss 3%, trailing stop 1.5%,
position-size bounds [0.0005, 0.002] (the values of the repository's test
scripts). -/
def baseStrategy : GridTradingStrategy where
  buy_threshold := 1
  sell_threshold := 1
  trade_amount := 1/1000
  last_buy_price := none
  last_sell_price := none
  total_trades := 0
  wins := 0
  losses := 0
  stop_loss_percentage := 3
  use_trailing_stop := false
  trailing_stop_percentage := 3/2
  highest_price_since_buy := none
  consecutive_wins := 0
  consecutive_losses := 0
  base_trade_amount := 1/1000
  min_position_size := 1/2000
  max_position_size := 1/500

/-- A bot holding BTC bought at 100000, with AI confirmation required
(the stop-loss scenario of the spec and of `test_stop_loss.py`). -/
def stopLossBot : BotState where
  position := "BTC"
  strategy := { baseStrategy with last_buy_price := some 100000 }
  require_ai_confirmation := true

/-- The trailing-stop scenario strategy of `test_trailing_stop.py`:
trailing stop enabled at 1.5%, sell threshold 10%. -/
def tsStrategy : GridTradingStrategy :=
  { baseStrategy with
    use_trailing_stop := true
    trailing_stop_percentage := 3/2
    sell_threshold := 10 }

/-- `tsStrategy` after a recorded buy at 100000 and an `analyze` tick at
104000: the peak has risen to 104000. -/
def tsAfterRise : GridTradingStrategy :=
  { tsStrategy with
    last_buy_price := some 100000
    highest_price_since_buy := some 104000
    total_trades := 1 }

/-- A strategy in a winning streak, used to exercise `adjust_position_size`. -/
def winStreakStrategy : GridTradingStrategy :=
  { baseStrategy with consecutive_wins := 5, wins := 5, total_trades := 5 }

/-- A quote-held strategy with a recorded sell at 100000. -/
def soldAtStrategy : GridTradingStrategy :=
  { baseStrategy with last_sell_price := some 100000 }

/-- A base-held strategy with a recorded buy at 100000 and one prior win. -/
def boughtAtStrategy : GridTradingStrategy :=
  { baseStrategy with
    last_buy_price := some 100000
    consecutive_wins := 1
    wins := 1
    total_trades := 1 }

/-- A state file with position `USDT` and both prices null, as written by a
fresh bot that never traded. -/
def nullPriceFile : PersistedState where
  position := "USDT"
  last_buy_price := none
  last_sell_price := none

/-- C1: for every price `p` and a base-held position whose recorded last buy
price is `b` (a positive price), `check_stop_loss` returns true iff
`(b - p)/b*100 ≥ stop_loss_percentage`; and on a tick where the check is
true, the orchestrator loop executes an emergency SELL directly — `analyze`
is never reached and the outcome is the same for every advisory response, so
the AdvisorGate is not consulted. -/
theorem check_stop_loss_iff_and_bypasses_gate (st : BotState) (p b : ℚ)
    (hpos : st.position = "BTC")
    (hb : st.strategy.last_buy_price = some b) (hb0 : 0 < b) :
    (check_stop_loss p st.position st.strategy = true ↔
      st.strategy.stop_loss_percentage ≤ (b - p) / b * 100) ∧
    (check_stop_loss p st.position st.strategy = true →
      ∀ advice buy_order sell_order balance step frac,
        tick (some p) advice buy_order sell_order balance step frac st =
          .stopLossSell (execute_trade .SELL p buy_order sell_order balance step frac st)) := by
  constructor
  · rw [hpos]
    simp [check_stop_loss, hb, hb0.ne']
  · intro hsl advice buy_order sell_order balance step frac
    simp [tick, hsl]

/-- Witness for C1 at the spec's concrete numbers: buy at 100000, stop-loss
3%; at price 96900 (a 3.1% loss) the check fires and the tick performs the
emergency sell even though AI confirmation is required and regardless of the
advisory text. -/
theorem check_stop_loss_iff_and_bypasses_gate_witness :
    check_stop_loss 96900 stopLossBot.position stopLossBot.strategy = true ∧
    tick (some 96900) (some (String.toList "wait, too risky")) (some ()) (some ()) none 0 0
        stopLossBot =
      .stopLossSell (execute_trade .SELL 96900 (some ()) (some ()) none 0 0 stopLossBot) := by
  have h := check_stop_loss_iff_and_bypasses_gate stopLossBot 96900 100000 rfl rfl
    (by norm_num)
  have ht : check_stop_loss 96900 stopLossBot.position stopLossBot.strategy = true :=
    h.1.mpr (by norm_num [stopLossBot, baseStrategy])
  exact ⟨ht, h.2 ht _ _ _ _ _ _⟩

/-- C2: while base-held with the trailing stop enabled, a recorded peak and a
recorded (positive) buy price, `analyze` returns SELL whenever the drawdown
from the peak `(peak - price)/peak*100` reaches `trailing_stop_percentage` —
with no condition on the rise from the buy price, so in particular even when
that rise is below `sell_threshold`. -/
theorem trailing_stop_sell_precedence (s : GridTradingStrategy) (p peak b : ℚ)
    (hts : s.use_trailing_stop = true)
    (hpk : s.highest_price_since_buy = some peak)
    (hb : s.last_buy_price = some b)
    (hpk0 : 0 < peak)
    (hdd : s.trailing_stop_percentage ≤ (peak - p) / peak * 100) :
    analyze p "BTC" s =
      some (.SELL, { s with highest_price_since_buy := some (max peak p) }) := by
  have hne : ¬("BTC" : String) = "USDT" := by decide
  have hmax0 : 0 < max peak p := lt_of_lt_of_le hpk0 (le_max_left _ _)
  rcases le_total p peak with hle | hle
  · have hm : max peak p = peak := max_eq_left hle
    simp [analyze, hne, hb, hpk, hts, hm, hpk0.ne', hdd]
  · have hm : max peak p = p := max_eq_right hle
    have hp0 : 0 < p := lt_of_lt_of_le hpk0 hle
    have hq : (peak - p) / peak * 100 ≤ 0 := by
      have : (peak - p) / peak ≤ 0 :=
        div_nonpos_of_nonpos_of_nonneg (by linarith) hpk0.le
      nlinarith
    have hdd0 : s.trailing_stop_percentage ≤ 0 := by linarith
    simp [analyze, hne, hb, hpk, hts, hm, hp0.ne', hdd0]

/-- Witness for C2, the spec's concrete scenario: trailing stop 1.5%, sell
threshold 10%; after a buy at 100000, an `analyze` tick at 104000 only raises
the peak (HOLD, rise 4% < 10%), and the next tick at 102440 — a 1.5% drawdown
from the peak while only 2.44% above the buy price — returns SELL. -/
theorem trailing_stop_sell_precedence_witness :
    analyze 104000 "BTC" (record_buy 100000 tsStrategy) = some (.HOLD, tsAfterRise) ∧
    analyze 102440 "BTC" tsAfterRise =
      some (.SELL, { tsAfterRise with highest_price_since_buy := some (max 104000 102440) }) := by
  constructor
  · norm_num [analyze, record_buy, tsStrategy, tsAfterRise, baseStrategy]
    decide
  · exact trailing_stop_sell_precedence tsAfterRise 102440 104000 100000 rfl rfl rfl
      (by norm_num) (by norm_num [tsAfterRise, tsStrategy, baseStrategy])

/-- C3: the claim that no `GridTradingStrategy` operation can raise fails in
the source: the reference-price guards test only `is None`, so a reference
price stored as `0.0` — exactly what `TradingBot.load_state` produces from a
persisted null via `state.get(...) or 0.0` — reaches the division and raises
`ZeroDivisionError` (`none` here).  Evaluations at the failing inputs: a
quote-held `analyze` with `last_sell_price = 0.0` crashes at any price, as
does `record_sell` with `last_buy_price = 0.0`; the guarded case the claim
cites (base-held with `last_buy_price = None`) does return HOLD. -/
theorem analyze_raises_on_zero_reference_price :
    analyze 50000 "USDT" { baseStrategy with last_sell_price := some 0 } = none ∧
    record_sell 99000 { baseStrategy with last_buy_price := some 0 } = none ∧
    analyze 50000 "BTC" baseStrategy = some (.HOLD, baseStrategy) := by
  refine ⟨by decide, by decide, by rfl⟩

/-- Helper for C4: one `adjust_position_size` call keeps `trade_amount`
inside `[min_position_size, max_position_size]` and leaves the bounds
themselves unchanged (the step is nonnegative). -/
theorem adjust_position_size_step_bounds (step frac b w : ℚ) (s : GridTradingStrategy)
    (hstep : 0 ≤ step)
    (h1 : s.min_position_size ≤ s.trade_amount)
    (h2 : s.trade_amount ≤ s.max_position_size) :
    (adjust_position_size step frac b w s).min_position_size = s.min_position_size ∧
    (adjust_position_size step frac b w s).max_position_size = s.max_position_size ∧
    s.min_position_size ≤ (adjust_position_size step frac b w s).trade_amount ∧
    (adjust_position_size step frac b w s).trade_amount ≤ s.max_position_size := by
  unfold adjust_position_size
  split_ifs with hw hl
  · refine ⟨rfl, rfl, ?_, ?_⟩
    · exact le_trans h1 (le_max_left _ _)
    · exact max_le h2 (le_trans (min_le_right _ _) (min_le_left _ _))
  · refine ⟨rfl, rfl, ?_, ?_⟩
    · exact le_max_right _ _
    · exact max_le (by linarith) (le_trans h1 h2)
  · exact ⟨rfl, rfl, h1, h2⟩

/-- C4: starting from a `trade_amount` inside
`[min_position_size, max_position_size]`, any sequence of
`adjust_position_size` calls — one per completed sell, with arbitrary quote
balances and win rates — keeps `trade_amount` inside the interval (whose
bounds the calls never change). -/
theorem trade_amount_stays_within_bounds (step frac : ℚ) (hstep : 0 ≤ step)
    (calls : List (ℚ × ℚ)) (s : GridTradingStrategy)
    (h1 : s.min_position_size ≤ s.trade_amount)
    (h2 : s.trade_amount ≤ s.max_position_size) :
    (adjust_calls step frac calls s).min_position_size = s.min_position_size ∧
    (adjust_calls step frac calls s).max_position_size = s.max_position_size ∧
    s.min_position_size ≤ (adjust_calls step frac calls s).trade_amount ∧
    (adjust_calls step frac calls s).trade_amount ≤ s.max_position_size := by
  induction calls generalizing s with
  | nil => exact ⟨rfl, rfl, h1, h2⟩
  | cons c cs ih =>
    have hstepb := adjust_position_size_step_bounds step frac c.1 c.2 s hstep h1 h2
    have hrec := ih (adjust_position_size step frac c.1 c.2 s)
      (hstepb.1 ▸ hstepb.2.2.1) (hstepb.2.1 ▸ hstepb.2.2.2)
    have hcons : adjust_calls step frac (c :: cs) s =
        adjust_calls step frac cs (adjust_position_size step frac c.1 c.2 s) := rfl
    rw [hcons]
    exact ⟨hrec.1.trans hstepb.1, hrec.2.1.trans hstepb.2.1,
      hstepb.1 ▸ hrec.2.2.1, hstepb.2.1 ▸ hrec.2.2.2⟩

/-- Witness for C4: with step 0.0005, balance fraction 1/2 and the
winning-streak strategy (bounds [0.0005, 0.002]), three adjustment calls with
assorted balances and win rates keep the trade amount inside the bounds. -/
theorem trade_amount_stays_within_bounds_witness :
    (adjust_calls (1/2000) (1/2) [(10000, 80), (0, 20), (10000, 50)]
        winStreakStrategy).min_position_size = winStreakStrategy.min_position_size ∧
    (adjust_calls (1/2000) (1/2) [(10000, 80), (0, 20), (10000, 50)]
        winStreakStrategy).max_position_size = winStreakStrategy.max_position_size ∧
    winStreakStrategy.min_position_size ≤
      (adjust_calls (1/2000) (1/2) [(10000, 80), (0, 20), (10000, 50)]
        winStreakStrategy).trade_amount ∧
    (adjust_calls (1/2000) (1/2) [(10000, 80), (0, 20), (10000, 50)]
        winStreakStrategy).trade_amount ≤ winStreakStrategy.max_position_size := by
  exact trade_amount_stays_within_bounds (1/2000) (1/2) (by norm_num)
    [(10000, 80), (0, 20), (10000, 50)] winStreakStrategy
    (by norm_num [winStreakStrategy, baseStrategy])
    (by norm_num [winStreakStrategy, baseStrategy])

/-- C5: the confirmation parser approves exactly when the number of positive
keywords found case-insensitively as substrings of the response strictly
exceeds the number of negative keyword matches and is itself positive; every
other input — a tie, more negatives, no matches, the empty text, a missing
(`None`) response — yields `false`. -/
theorem parse_ai_confirmation_iff (r : Option (List Char)) :
    parse_ai_confirmation r = true ↔
      ∃ t, r = some t ∧
        keyword_count (lower_chars t) negative_keywords <
          keyword_count (lower_chars t) positive_keywords ∧
        0 < keyword_count (lower_chars t) positive_keywords := by
  cases r with
  | none => simp [parse_ai_confirmation]
  | some t =>
    by_cases h : t.isEmpty
    · have ht : t = [] := by simpa using h
      subst ht
      simp only [parse_ai_confirmation, List.isEmpty_nil, if_true, Option.some.injEq]
      constructor
      · intro hfalse; exact absurd hfalse (by decide)
      · rintro ⟨t, rfl, hlt, hpos⟩
        exact absurd hpos (by decide)
    · simp [parse_ai_confirmation, h]

/-- C6: with a quote-held position, `analyze` returns BUY when no sell price
is recorded (bootstrap entry); otherwise, with a recorded positive sell price
`S`, it returns BUY exactly when the drop `(S - p)/S*100` reaches
`buy_threshold` and HOLD otherwise. -/
theorem quote_held_buy_decision (s : GridTradingStrategy) (p : ℚ) :
    (s.last_sell_price = none → analyze p "USDT" s = some (.BUY, s)) ∧
    (∀ S, s.last_sell_price = some S → 0 < S →
      analyze p "USDT" s =
        some (if s.buy_threshold ≤ (S - p) / S * 100 then (.BUY, s) else (.HOLD, s))) := by
  constructor
  · intro h
    simp [analyze, h]
  · intro S hS hS0
    simp only [analyze, if_pos rfl, hS, hS0.ne', if_false]
    split_ifs <;> rfl

/-- Witness for C6: with no recorded sell price `analyze` buys at any price;
with a recorded sell at 100000 and buy threshold 1%, price 98000 (a 2% drop)
triggers BUY. -/
theorem quote_held_buy_decision_witness :
    analyze 98000 "USDT" baseStrategy = some (.BUY, baseStrategy) ∧
    analyze 98000 "USDT" soldAtStrategy = some (.BUY, soldAtStrategy) := by
  constructor
  · exact (quote_held_buy_decision baseStrategy 98000).1 rfl
  · have h := (quote_held_buy_decision soldAtStrategy 98000).2 100000 rfl (by norm_num)
    rw [if_pos (by norm_num [soldAtStrategy, baseStrategy])] at h
    exact h

/-- C7: startup reconciliation — when the live balance query succeeds, a BTC
balance above the dust threshold 0.0001 with persisted position USDT flips the
effective position to BTC, a balance at or below the threshold with persisted
position BTC flips it to USDT; whenever the resulting position is BTC with a
missing-or-zero buy price and the current market price is available (and
nonzero), the buy price is set to that market price; and the corrected state
is saved in every such run. -/
theorem reconcile_override_and_estimate (pos : String) (bal : BalanceMap) (cp : ℚ)
    (s : GridTradingStrategy) (hcp : 0 < cp) :
    ((0.0001 : ℚ) < bal.btc → pos = "USDT" →
      (reconcile pos (some bal) (some cp) s).1 = "BTC") ∧
    (bal.btc ≤ (0.0001 : ℚ) → pos = "BTC" →
      (reconcile pos (some bal) (some cp) s).1 = "USDT") ∧
    ((reconcile pos (some bal) (some cp) s).1 = "BTC" →
      (s.last_buy_price = none ∨ s.last_buy_price = some 0) →
      (reconcile pos (some bal) (some cp) s).2.1.last_buy_price = some cp) ∧
    (reconcile pos (some bal) (some cp) s).2.2 = true := by
  refine ⟨?_, ?_, ?_, ?_⟩
  · intro hdust hpos
    simp [reconcile, hdust, hpos]
  · intro hdust hpos
    subst hpos
    have hnot : ¬((0.0001 : ℚ) < bal.btc ∧ ("BTC" : String) = "USDT") := by
      rintro ⟨-, h⟩; exact absurd h (by decide)
    simp [reconcile, hnot, hdust]
  · intro h1 hmissing
    simp only [reconcile] at h1 ⊢
    rw [if_pos ⟨h1, hmissing⟩, if_neg hcp.ne']
  · simp [reconcile]

/-- Witness for C7: persisted position USDT, live balance of 0.5 BTC (above
dust), market price 100000, no recorded buy price: the effective position
becomes BTC, the buy price is estimated as 100000 and the state is saved. -/
theorem reconcile_override_and_estimate_witness :
    (reconcile "USDT" (some ⟨500, 1/2⟩) (some 100000) baseStrategy).1 = "BTC" ∧
    (reconcile "USDT" (some ⟨500, 1/2⟩) (some 100000)
        baseStrategy).2.1.last_buy_price = some 100000 ∧
    (reconcile "USDT" (some ⟨500, 1/2⟩) (some 100000) baseStrategy).2.2 = true := by
  have h := reconcile_override_and_estimate "USDT" ⟨500, 1/2⟩ 100000 baseStrategy
    (by norm_num)
  have h1 := h.1 (by norm_num) rfl
  exact ⟨h1, h.2.2.1 h1 (Or.inl rfl), h.2.2.2⟩

/-- C8: when the exchange order placement returns null for a BUY or a SELL,
`execute_trade` returns `False` and the resulting bot state is literally the
input state — the position is not flipped and no strategy bookkeeping
(`last_buy_price`, `last_sell_price`, `total_trades`, `wins`, `losses`)
happens — and nothing is persisted (`save_state` is not reached). -/
theorem execute_trade_null_order_is_noop (p step frac : ℚ) (st : BotState) :
    (∀ sell_order balance,
      execute_trade .BUY p none sell_order balance step frac st =
        some ⟨st, false, false⟩) ∧
    (∀ buy_order balance,
      execute_trade .SELL p buy_order none balance step frac st =
        some ⟨st, false, false⟩) := by
  exact ⟨fun _ _ => rfl, fun _ _ => rfl⟩

/-- C9: `record_sell` always stores the sell price and counts the trade; with
a recorded (positive) buy price `b` it attributes a win — `wins` and
`consecutive_wins` incremented, `consecutive_losses` cleared — exactly when
`(p - b)/b*100 > 0`, and otherwise a loss — `losses` and
`consecutive_losses` incremented, `consecutive_wins` cleared; with no
recorded buy price the trade is counted but neither `wins` nor `losses`
changes. -/
theorem record_sell_attribution (s : GridTradingStrategy) (p : ℚ) :
    (s.last_buy_price = none →
      record_sell p s = some { s with
        last_sell_price := some p
        highest_price_since_buy := none
        total_trades := s.total_trades + 1 }) ∧
    (∀ b, s.last_buy_price = some b → 0 < b →
      record_sell p s = some (
        if 0 < (p - b) / b * 100 then
          { s with
            last_sell_price := some p
            highest_price_since_buy := none
            total_trades := s.total_trades + 1
            wins := s.wins + 1
            consecutive_wins := s.consecutive_wins + 1
            consecutive_losses := 0 }
        else
          { s with
            last_sell_price := some p
            highest_price_since_buy := none
            total_trades := s.total_trades + 1
            losses := s.losses + 1
            consecutive_losses := s.consecutive_losses + 1
            consecutive_wins := 0 })) := by
  constructor
  · intro h
    simp [record_sell, h]
  · intro b hb hb0
    simp only [record_sell, hb, hb0.ne', if_false]
    split_ifs <;> rfl

/-- Witness for C9: a sell at 102000 after a buy at 100000 (a 2% gain) is
recorded as a win with the streak counters updated, and a sell at 99000 with
no recorded buy price is counted without attribution. -/
theorem record_sell_attribution_witness :
    record_sell 102000 boughtAtStrategy = some { boughtAtStrategy with
      last_sell_price := some 102000
      highest_price_since_buy := none
      total_trades := boughtAtStrategy.total_trades + 1
      wins := boughtAtStrategy.wins + 1
      consecutive_wins := boughtAtStrategy.consecutive_wins + 1
      consecutive_losses := 0 } ∧
    record_sell 99000 baseStrategy = some { baseStrategy with
      last_sell_price := some 99000
      highest_price_since_buy := none
      total_trades := baseStrategy.total_trades + 1 } := by
  constructor
  · have h := (record_sell_attribution boughtAtStrategy 102000).2 100000 rfl (by norm_num)
    rw [if_pos (by norm_num)] at h
    exact h
  · exact (record_sell_attribution baseStrategy 99000).1 rfl

/-- C10: after `load_state` successfully reads a state file, both strategy
prices are plain numbers, never `None` (`some` here): a stored null or `0` is
coerced to `0.0`.  Consequently, for a quote-held position restored from a
file whose `last_sell_price` is null, the bootstrap branch of `analyze` —
which fires only on `last_sell_price is None` — is unreachable, and `analyze`
goes into the drop-percentage computation with divisor `0.0` (which raises
`ZeroDivisionError`, the `none` outcome, rather than returning the bootstrap
BUY). -/
theorem load_state_coerces_none_and_skips_bootstrap (file : PersistedState)
    (cp : Option ℚ) (s : GridTradingStrategy) :
    ((load_state file cp s).2.1.last_buy_price ≠ none ∧
     (load_state file cp s).2.1.last_sell_price ≠ none) ∧
    ((file.last_sell_price = none ∨ file.last_sell_price = some 0) →
      (load_state file cp s).2.1.last_sell_price = some 0 ∧
      ∀ p, analyze p "USDT" (load_state file cp s).2.1 = none) := by
  have hsell : (load_state file cp s).2.1.last_sell_price =
      some (load_coerce file.last_sell_price) := by
    rcases cp with _ | cp' <;> simp only [load_state] <;> split_ifs <;> rfl
  have hbuy : (load_state file cp s).2.1.last_buy_price ≠ none := by
    rcases cp with _ | cp' <;> simp only [load_state] <;> split_ifs <;> simp
  refine ⟨⟨hbuy, by rw [hsell]; exact Option.some_ne_none _⟩, ?_⟩
  intro h
  have h0 : load_coerce file.last_sell_price = 0 := by
    rcases h with h | h <;> rw [h] <;> rfl
  rw [h0] at hsell
  refine ⟨hsell, fun p => ?_⟩
  simp [analyze, hsell]

/-- Witness for C10: loading a file with position USDT and both prices null
(no estimation possible, market price unavailable) yields
`last_sell_price = 0.0`, a numeric `last_buy_price`, and `analyze` at price
50000 on the restored quote-held state crashes instead of returning the
bootstrap BUY. -/
theorem load_state_coerces_none_and_skips_bootstrap_witness :
    (load_state nullPriceFile none baseStrategy).2.1.last_sell_price = some 0 ∧
    (load_state nullPriceFile none baseStrategy).2.1.last_buy_price = some 0 ∧
    analyze 50000 "USDT" (load_state nullPriceFile none baseStrategy).2.1 = none := by
  have h := load_state_coerces_none_and_skips_bootstrap nullPriceFile none baseStrategy
  exact ⟨(h.2 (Or.inl rfl)).1, by rfl, (h.2 (Or.inl rfl)).2 50000⟩

end CryptoBot
